import Mathlib

/-!
Verification development for the `sp-sao-paulo` Scrapy spider
(`assessorai_crawler/spiders/sp-sao-paulo.py`).

The spider is embedded shallowly: every method of `SpSaoPauloSpider` that the
specification talks about (`__init__`, `start_requests`, `parse`,
`create_item_from_ajax`, `get_next_page_request`) is translated into a pure
Lean function over an explicit state (the running item counter and the
request parameters that Scrapy threads through `response.meta`).  Python
scalar values that the code tests for truthiness or renders with `str()` are
modelled by the small dynamic type `PyVal`; the MD5 digest used for the
`uuid` field is implemented bit-for-bit (RFC 1321) over `Nat` with explicit
reduction modulo `2 ^ 32`.
-/

/-! ### Python scalar values

`PyVal` models the JSON scalars that reach the spider's dynamic code paths:
`None` (an absent key), booleans, integers and strings.  `pyTruthy` is
Python truthiness on these values and `pyStr` is Python `str()` (also the
behaviour of `str.format` and f-string interpolation on such a value). -/

inductive PyVal where
  | vnone : PyVal
  | vbool (b : Bool) : PyVal
  | vint (n : Int) : PyVal
  | vstr (s : String) : PyVal
deriving DecidableEq, Repr

def pyTruthy : PyVal → Bool
  | PyVal.vnone => false
  | PyVal.vbool b => b
  | PyVal.vint n => n != 0
  | PyVal.vstr s => s != ""

def pyStr : PyVal → String
  | PyVal.vnone => "None"
  | PyVal.vbool b => if b then "True" else "False"
  | PyVal.vint n => toString n
  | PyVal.vstr s => s

/-! ### Python string methods

`str.strip()`, `str.lower()` and `str.replace(' ', '-')` as used by
`create_item_from_ajax`.  Python `strip()` removes the six ASCII whitespace
characters; `lower()` is modelled by the ASCII case mapping (the type codes
fed to it are ASCII acronyms such as `"PL"`). -/

def pyIsSpace (c : Char) : Bool :=
  c.toNat = 32 || c.toNat = 9 || c.toNat = 10 || c.toNat = 13 || c.toNat = 11 || c.toNat = 12

def pyToLowerChar (c : Char) : Char :=
  if 65 ≤ c.toNat && c.toNat ≤ 90 then Char.ofNat (c.toNat + 32) else c

def pyStripList (l : List Char) : List Char :=
  ((l.dropWhile pyIsSpace).reverse.dropWhile pyIsSpace).reverse

def pyStrip (s : String) : String := String.mk (pyStripList s.data)

def pyLower (s : String) : String := String.mk (s.data.map pyToLowerChar)

def pyReplaceSpaceHyphen (s : String) : String :=
  String.mk (s.data.map (fun c => if c = ' ' then '-' else c))

/-! ### UTF-8 and MD5

`hashlib.md5(str(codigo).encode('utf-8')).hexdigest()` is embedded as
`md5HexOfString`: UTF-8 byte encoding of the string, RFC 1321 MD5 over the
byte list, lowercase hex rendering of the 16-byte digest.  All 32-bit
machine arithmetic is `Nat` arithmetic reduced modulo `2 ^ 32`. -/

def utf8EncodeCharNat (c : Char) : List Nat :=
  let n := c.toNat
  if n < 128 then [n]
  else if n < 2048 then [192 + n / 64, 128 + n % 64]
  else if n < 65536 then [224 + n / 4096, 128 + (n / 64) % 64, 128 + n % 64]
  else [240 + n / 262144, 128 + (n / 4096) % 64, 128 + (n / 64) % 64, 128 + n % 64]

def utf8Encode (s : String) : List Nat := s.data.flatMap utf8EncodeCharNat

def add32 (a b : Nat) : Nat := (a + b) % 4294967296

def not32 (a : Nat) : Nat := a ^^^ 4294967295

def rotl32 (x n : Nat) : Nat := ((x <<< n) ||| (x >>> (32 - n))) % 4294967296

def mdF (b c d : Nat) : Nat := (b &&& c) ||| (not32 b &&& d)

def mdG (b c d : Nat) : Nat := (d &&& b) ||| (not32 d &&& c)

def mdH (b c d : Nat) : Nat := b ^^^ c ^^^ d

def mdI (b c d : Nat) : Nat := c ^^^ (b ||| not32 d)

def mdK : List Nat :=
  [0xd76aa478, 0xe8c7b756, 0x242070db, 0xc1bdceee,
   0xf57c0faf, 0x4787c62a, 0xa8304613, 0xfd469501,
   0x698098d8, 0x8b44f7af, 0xffff5bb1, 0x895cd7be,
   0x6b901122, 0xfd987193, 0xa679438e, 0x49b40821,
   0xf61e2562, 0xc040b340, 0x265e5a51, 0xe9b6c7aa,
   0xd62f105d, 0x02441453, 0xd8a1e681, 0xe7d3fbc8,
   0x21e1cde6, 0xc33707d6, 0xf4d50d87, 0x455a14ed,
   0xa9e3e905, 0xfcefa3f8, 0x676f02d9, 0x8d2a4c8a,
   0xfffa3942, 0x8771f681, 0x6d9d6122, 0xfde5380c,
   0xa4beea44, 0x4bdecfa9, 0xf6bb4b60, 0xbebfbc70,
   0x289b7ec6, 0xeaa127fa, 0xd4ef3085, 0x04881d05,
   0xd9d4d039, 0xe6db99e5, 0x1fa27cf8, 0xc4ac5665,
   0xf4292244, 0x432aff97, 0xab9423a7, 0xfc93a039,
   0x655b59c3, 0x8f0ccc92, 0xffeff47d, 0x85845dd1,
   0x6fa87e4f, 0xfe2ce6e0, 0xa3014314, 0x4e0811a1,
   0xf7537e82, 0xbd3af235, 0x2ad7d2bb, 0xeb86d391]

def mdS : List Nat :=
  [7, 12, 17, 22, 7, 12, 17, 22, 7, 12, 17, 22, 7, 12, 17, 22,
   5, 9, 14, 20, 5, 9, 14, 20, 5, 9, 14, 20, 5, 9, 14, 20,
   4, 11, 16, 23, 4, 11, 16, 23, 4, 11, 16, 23, 4, 11, 16, 23,
   6, 10, 15, 21, 6, 10, 15, 21, 6, 10, 15, 21, 6, 10, 15, 21]

def leBytes : Nat → Nat → List Nat
  | 0, _ => []
  | n + 1, v => (v % 256) :: leBytes n (v / 256)

def leWords : List Nat → List Nat
  | b0 :: b1 :: b2 :: b3 :: rest =>
      (b0 + 256 * (b1 + 256 * (b2 + 256 * b3))) :: leWords rest
  | _ => []

def md5pad (msg : List Nat) : List Nat :=
  msg ++ [128] ++ List.replicate ((119 - msg.length % 64) % 64) 0
      ++ leBytes 8 ((msg.length * 8) % 18446744073709551616)

def md5round (M : List Nat) (st : Nat × Nat × Nat × Nat) (i : Nat) : Nat × Nat × Nat × Nat :=
  let a := st.1
  let b := st.2.1
  let c := st.2.2.1
  let d := st.2.2.2
  let f := if i < 16 then mdF b c d
           else if i < 32 then mdG b c d
           else if i < 48 then mdH b c d
           else mdI b c d
  let g := if i < 16 then i
           else if i < 32 then (5 * i + 1) % 16
           else if i < 48 then (3 * i + 5) % 16
           else (7 * i) % 16
  let tmp := add32 (add32 (add32 a f) (mdK.getD i 0)) (M.getD g 0)
  (d, add32 b (rotl32 tmp (mdS.getD i 0)), b, c)

def md5block (st : Nat × Nat × Nat × Nat) (block : List Nat) : Nat × Nat × Nat × Nat :=
  let M := leWords block
  let r := (List.range 64).foldl (md5round M) st
  (add32 st.1 r.1, add32 st.2.1 r.2.1, add32 st.2.2.1 r.2.2.1, add32 st.2.2.2 r.2.2.2)

def chunksAux : Nat → List Nat → List (List Nat)
  | 0, _ => []
  | _ + 1, [] => []
  | n + 1, l => l.take 64 :: chunksAux n (l.drop 64)

def chunks64 (l : List Nat) : List (List Nat) := chunksAux l.length l

def md5init : Nat × Nat × Nat × Nat := (0x67452301, 0xefcdab89, 0x98badcfe, 0x10325476)

def md5bytes (msg : List Nat) : List Nat :=
  let r := (chunks64 (md5pad msg)).foldl md5block md5init
  leBytes 4 r.1 ++ leBytes 4 r.2.1 ++ leBytes 4 r.2.2.1 ++ leBytes 4 r.2.2.2

def hexDigitChar (n : Nat) : Char :=
  if n < 10 then Char.ofNat (48 + n) else Char.ofNat (87 + n)

def hexdigest (bytes : List Nat) : String :=
  String.mk (bytes.flatMap (fun b => [hexDigitChar (b / 16), hexDigitChar (b % 16)]))

def md5HexOfString (s : String) : String := hexdigest (md5bytes (utf8Encode s))

/-! ### JSON values

A body for `parse` is modelled as `Option Json`: `none` when `json.loads`
would raise `JSONDecodeError`, `some j` when it decodes to the value `j`.
Object fields are an association list with Python `dict.get` lookup. -/

inductive Json where
  | null : Json
  | bool (b : Bool) : Json
  | num (n : Int) : Json
  | str (s : String) : Json
  | arr (elems : List Json) : Json
  | obj (fields : List (String × Json)) : Json

def Json.lookupKey : List (String × Json) → String → Option Json
  | [], _ => none
  | (k, v) :: rest, key => if k = key then some v else Json.lookupKey rest key

def Json.isObj : Json → Bool
  | Json.obj _ => true
  | _ => false

/-- The Python exceptions that the body handling of `parse` can raise:
`json.loads` raises `JSONDecodeError` on an unparseable body, and
`data_json.get('data', [])` raises `AttributeError` when the decoded value
is not a dict. -/
inductive PyError where
  | jsonDecodeError : PyError
  | attributeError : PyError
deriving DecidableEq, Repr

/-- Lines 63-64 of `parse`: `json.loads(response.text)` followed by
`data_json.get('data', [])`.  `none` input means the body was not valid
JSON.  A decoded non-object raises `AttributeError` at `.get`; a decoded
object yields its `data` value, **defaulting to the empty array when the
key is absent** — absence of the records array is not an error. -/
def loadDataField : Option Json → Except PyError Json
  | none => Except.error PyError.jsonDecodeError
  | some (Json.obj fields) => Except.ok ((Json.lookupKey fields "data").getD (Json.arr []))
  | some _ => Except.error PyError.attributeError

/-! ### Spider data model

`AjaxData` is one well-formed entry of the page JSON's `data` array, holding
exactly the fields `create_item_from_ajax` reads.  Fields read with
`.get(key)` (no default) are `PyVal` (`vnone` when the key is absent);
fields read with `.get(key, '')` carry the default already applied;
`promoventes` holds the `p.get('texto', '')` of each entry. -/

structure AjaxData where
  codigo : PyVal
  texto : String
  sigla : String
  numero : PyVal
  ano : PyVal
  promoventes : List String
  ementa : String
  natodigital : PyVal
deriving DecidableEq, Repr

/-- The decoded page body as `parse` consumes it: `recordsFiltered`
(defaulting to 0 when absent) and the `data` array. -/
structure PageJson where
  recordsFiltered : Nat
  data : List AjaxData
deriving DecidableEq, Repr

/-- The query-parameter dict built in `start_requests` and copied/updated in
`get_next_page_request`.  The dict stores decimal strings; `draw` and
`start` — the only two keys pagination rewrites (via `str(int(...) + 1)` and
`str(next_page_start_offset)`) — are held as their numeric values, all other
key-value pairs are carried verbatim in `others` in dict insertion order
(`length`, `tipo`, sort and search directives, optional date bounds). -/
structure ParamsTemplate where
  draw : Nat
  start : Nat
  others : List (String × String)
deriving DecidableEq, Repr

/-- A `scrapy.Request` as this spider builds it: the URL, the headers and
the `meta['params_template']` dict (the callback is always `parse`). -/
structure HttpRequest where
  url : String
  headers : List (String × String)
  paramsTemplate : ParamsTemplate
deriving DecidableEq, Repr

/-- A response to such a request (no redirects are modelled, so
`response.url = response.request.url` and `response.meta` is the request's
meta).  `page` is the typed view of the decoded JSON body. -/
structure HttpResponse where
  request : HttpRequest
  page : PageJson
deriving DecidableEq, Repr

/-- The fields of `ProposicaoItem` that `create_item_from_ajax` fills.
`meta_source_json_codigo` is the single entry of the `meta` dict. -/
structure ProposicaoItem where
  house : String
  title : String
  itemType : String
  number : PyVal
  year : PyVal
  author : List String
  subject : String
  scraped_at : String
  meta_source_json_codigo : PyVal
  url : String
  uuid : String
  file_urls : List String
  md_files : String
deriving DecidableEq, Repr

namespace SpSaoPauloSpider

def house : String := "Câmara Municipal de São Paulo"

def uf : String := "SP"

def slug : String := "sp-sao-paulo"

def ajax_url : String := "https://splegisconsulta.saopaulo.sp.leg.br/Pesquisa/PageDataProjeto"

def items_per_page_ajax : Nat := 100

/-- Python `int()` on a decimal numeral string (the only shape the spider
receives for `-a limit=...`; a non-numeric string raises in Python and is
outside the modelled domain). -/
def pyInt (s : String) : Nat := s.data.foldl (fun n c => n * 10 + (c.toNat - 48)) 0

/-- `__init__`: `self.total_items_limit = int(limit) if limit else None`.
The `-a limit=...` argument arrives as a string; the empty string is falsy
(`None` stored), any other string is converted with `int()`.  Note `"0"` is
a truthy string, so a limit of 0 is stored as `some 0`, not as `None`. -/
def initTotalItemsLimit : Option String → Option Nat
  | none => none
  | some s => if s = "" then none else some (pyInt s)

/-- Truthiness of `self.total_items_limit` (`None` and `0` are falsy). -/
def limitTruthy : Option Nat → Bool
  | none => false
  | some n => n != 0

/-- `"&".join([f"{k}={v}" for k, v in params.items()])` over the params
dict, whose insertion order puts `draw` first and `start` second. -/
def queryString (p : ParamsTemplate) : String :=
  String.intercalate "&"
    ((("draw", toString p.draw) :: ("start", toString p.start) :: p.others).map
      (fun kv => kv.1 ++ "=" ++ kv.2))

def requestHeaders : List (String × String) :=
  [("X-Requested-With", "XMLHttpRequest"),
   ("Referer", "https://splegisconsulta.saopaulo.sp.leg.br/Pesquisa/IndexProjeto")]

/-- The params dict built in `start_requests`, with the optional date-range
bounds appended after construction. -/
def initialParams (data_inicio data_fim : Option String) : ParamsTemplate :=
  { draw := 1
    start := 0
    others :=
      [("length", toString items_per_page_ajax), ("tipo", "1"),
       ("somenteEmTramitacao", "false"), ("order[0][column]", "1"),
       ("order[0][dir]", "desc"), ("search[value]", ""), ("search[regex]", "false")]
      ++ (match data_inicio with | some d => [("autuacaoI", d)] | none => [])
      ++ (match data_fim with | some d => [("autuacaoF", d)] | none => []) }

/-- `start_requests`: the single initial request to the listing API, with
the AJAX headers and `meta={'params_template': params.copy()}`. -/
def start_requests (data_inicio data_fim : Option String) : HttpRequest :=
  { url := ajax_url ++ "?" ++ queryString (initialParams data_inicio data_fim)
    headers := requestHeaders
    paramsTemplate := initialParams data_inicio data_fim }

/-- `urllib`/Scrapy `response.urljoin(ref)` for the only shape of reference
this spider produces: `ref` starts with `/`, so the result is the scheme
and authority of the base URL followed by `ref`.  Modelled for `https://`
bases: the first 8 characters are the scheme prefix and the authority runs
to the next `/`. -/
def urljoin (base ref : String) : String :=
  String.mk (base.data.take 8 ++ (base.data.drop 8).takeWhile (fun c => c ≠ '/')) ++ ref

/-- The PDF link template chosen by the truthiness of
`ajax_data.get('natodigital')`, with `{codigo}` substituted by
`str.format`. -/
def pdf_link (natodigital : Bool) (codigo : String) : String :=
  if natodigital then
    "/ArquivoProcesso/GerarArquivoProcessoPorID/" ++ codigo ++ "?referidas=true"
  else
    "/ArquivoProcesso/GerarArquivoProcessoPorID/" ++ codigo ++ "?filtroAnexo=1"

/-- `create_item_from_ajax(self, ajax_data, response)`.  Returns `none`
(Python `None`) when the process code is falsy, otherwise the populated
item.  `datetime.now().isoformat()` is the explicit parameter `now`. -/
def create_item_from_ajax (ajax_data : AjaxData) (response : HttpResponse) (now : String) :
    Option ProposicaoItem :=
  let codigo_processo := ajax_data.codigo
  if !pyTruthy codigo_processo then none
  else
    let itemType := pyStrip ajax_data.sigla
    let url := urljoin response.request.url
      (pdf_link (pyTruthy ajax_data.natodigital) (pyStr codigo_processo))
    let normalized_type :=
      if itemType != "" then pyReplaceSpaceHyphen (pyLower itemType) else "unknown"
    some
      { house := house
        title := pyStrip ajax_data.texto
        itemType := itemType
        number := ajax_data.numero
        year := ajax_data.ano
        author := ajax_data.promoventes.map pyStrip
        subject := pyStrip ajax_data.ementa
        scraped_at := now
        meta_source_json_codigo := codigo_processo
        url := url
        uuid := md5HexOfString (pyStr codigo_processo)
        file_urls := [url]
        md_files := uf ++ "/" ++ slug ++ "/" ++ normalized_type ++ "-"
          ++ pyStr ajax_data.numero ++ "-" ++ pyStr ajax_data.ano ++ ".md" }

/-- `get_next_page_request(self, response, data_json)`: reads
`recordsFiltered` (default 0) and the current `start` from
`response.meta['params_template']`; if `start + items_per_page_ajax <
records_filtered`, copies the params with `draw` incremented by 1 and
`start` advanced by the page size and returns the request for them,
reusing `response.request.headers`; otherwise returns `None`. -/
def get_next_page_request (response : HttpResponse) : Option HttpRequest :=
  let records_filtered := response.page.recordsFiltered
  let current_start_offset := response.request.paramsTemplate.start
  let next_page_start_offset := current_start_offset + items_per_page_ajax
  if next_page_start_offset < records_filtered then
    let next_params : ParamsTemplate :=
      { response.request.paramsTemplate with
          draw := response.request.paramsTemplate.draw + 1
          start := next_page_start_offset }
    some
      { url := ajax_url ++ "?" ++ queryString next_params
        headers := response.request.headers
        paramsTemplate := next_params }
  else none

/-- `self.total_items_limit and self.items_processed_count >= self.total_items_limit`. -/
def limitReached (limit : Option Nat) (count : Nat) : Bool :=
  limitTruthy limit && decide (count ≥ limit.getD 0)

/-- The record loop of `parse` (lines 66-78).  Returns the yielded items,
the final `items_processed_count`, and whether the loop hit the limit check
and executed the early `return` (which also skips the pagination logic).
Note the counter is incremented **before** the missing-code test, so a
skipped record still advances it. -/
def parseLoop (limit : Option Nat) (response : HttpResponse)
    (now : String) : List AjaxData → Nat → List ProposicaoItem × Nat × Bool
  | [], count => ([], count, false)
  | ajax_data :: rest, count =>
      if limitReached limit count then ([], count, true)
      else
        match create_item_from_ajax ajax_data response now with
        | none => parseLoop limit response now rest (count + 1)
        | some item =>
            let r := parseLoop limit response now rest (count + 1)
            (item :: r.1, r.2.1, r.2.2)

/-- The outcome of one call of `parse`: the items yielded, the updated
`items_processed_count`, and the next-page request (if one was yielded —
`yield None` is transparent to Scrapy and is modelled as `none`). -/
structure ParseOutput where
  items : List ProposicaoItem
  itemsProcessedCount : Nat
  nextRequest : Option HttpRequest
deriving DecidableEq, Repr

/-- `parse(self, response)` over the typed body view, with the mutable
spider state (`total_items_limit`, `items_processed_count`) passed
explicitly.  After the loop, the pagination logic runs only when the early
`return` did not fire: `if not self.total_items_limit or
self.items_processed_count < self.total_items_limit: yield
self.get_next_page_request(response, data_json)`. -/
def parse (limit : Option Nat) (count : Nat) (response : HttpResponse) (now : String) :
    ParseOutput :=
  let r := parseLoop limit response now response.page.data count
  { items := r.1
    itemsProcessedCount := r.2.1
    nextRequest :=
      if r.2.2 then none
      else if !limitTruthy limit || decide (r.2.1 < limit.getD 0) then
        get_next_page_request response
      else none }

/-- One fetch-parse cycle per recursion step: the walk of the whole
pagination, counting how many page requests are issued in total (the
current one included).  The server is modelled by the constant filtered
total `T` it reports on every page and by `pd`, the `data` array it serves
for a given `start` offset.  Lean accepts this definition only with a
termination proof, which is exactly the walk-termination argument: each
next request strictly advances `start` while `start` stays below `T`. -/
def walkRequestCount (T : Nat) (pd : Nat → List AjaxData) (now : String)
    (limit : Option Nat) (count : Nat) (req : HttpRequest) : Nat :=
  let response : HttpResponse :=
    { request := req, page := { recordsFiltered := T, data := pd req.paramsTemplate.start } }
  match (parse limit count response now).nextRequest with
  | none => 1
  | some r =>
      if h : req.paramsTemplate.start < r.paramsTemplate.start ∧ r.paramsTemplate.start ≤ T then
        1 + walkRequestCount T pd now limit (parse limit count response now).itemsProcessedCount r
      else 1
termination_by T - req.paramsTemplate.start
decreasing_by
  omega

end SpSaoPauloSpider

/-! ### Lemmas about the record loop and pagination -/

namespace SpSaoPauloSpider

theorem limitReached_none (count : Nat) : limitReached none count = false := rfl

theorem limitReached_zero (count : Nat) : limitReached (some 0) count = false := rfl

/-- With no limit, the loop of `parse` emits one item per record that has a
process code (in order) and advances the counter once per raw record. -/
theorem parseLoop_none (response : HttpResponse) (now : String) (data : List AjaxData) :
    ∀ count : Nat,
      parseLoop none response now data count =
        (data.filterMap (fun a => create_item_from_ajax a response now),
          count + data.length, false) := by
  induction data with
  | nil => intro count; simp [parseLoop]
  | cons a rest ih =>
      intro count
      rw [parseLoop]
      rw [limitReached_none]
      cases h : create_item_from_ajax a response now with
      | none => simp [h, ih (count + 1)]; omega
      | some item => simp [h, ih (count + 1)]; omega

theorem parse_none (count : Nat) (response : HttpResponse) (now : String) :
    parse none count response now =
      { items := response.page.data.filterMap (fun a => create_item_from_ajax a response now)
        itemsProcessedCount := count + response.page.data.length
        nextRequest := get_next_page_request response } := by
  simp [parse, parseLoop_none, limitTruthy]

theorem gnpr_isSome_iff (response : HttpResponse) :
    (get_next_page_request response).isSome = true ↔
      response.request.paramsTemplate.start + items_per_page_ajax
        < response.page.recordsFiltered := by
  unfold get_next_page_request
  dsimp only
  split
  · next h => simpa using h
  · next h => simpa using h

theorem gnpr_some (response : HttpResponse) (r : HttpRequest)
    (h : get_next_page_request response = some r) :
    r.paramsTemplate.draw = response.request.paramsTemplate.draw + 1 ∧
    r.paramsTemplate.start = response.request.paramsTemplate.start + items_per_page_ajax ∧
    r.paramsTemplate.others = response.request.paramsTemplate.others ∧
    r.headers = response.request.headers ∧
    r.url = ajax_url ++ "?" ++ queryString r.paramsTemplate ∧
    response.request.paramsTemplate.start + items_per_page_ajax
      < response.page.recordsFiltered := by
  unfold get_next_page_request at h
  dsimp only at h
  split at h
  · next hlt =>
      cases h
      simp_all
  · cases h

theorem gnpr_none (response : HttpResponse)
    (h : get_next_page_request response = none) :
    ¬ response.request.paramsTemplate.start + items_per_page_ajax
        < response.page.recordsFiltered := by
  unfold get_next_page_request at h
  dsimp only at h
  split at h
  · cases h
  · next hge => exact hge

end SpSaoPauloSpider

namespace SpSaoPauloSpider

theorem create_item_isSome (a : AjaxData) (response : HttpResponse) (now : String)
    (h : pyTruthy a.codigo = true) :
    (create_item_from_ajax a response now).isSome = true := by
  simp [create_item_from_ajax, h]

theorem parseLoop_zero (response : HttpResponse) (now : String) (data : List AjaxData) :
    ∀ count : Nat,
      parseLoop (some 0) response now data count = parseLoop none response now data count := by
  induction data with
  | nil => intro count; rfl
  | cons a rest ih =>
      intro count
      rw [parseLoop, parseLoop, limitReached_zero, limitReached_none]
      cases h : create_item_from_ajax a response now with
      | none => simp [h, ih (count + 1)]
      | some item => simp [h, ih (count + 1)]

theorem parse_zero (count : Nat) (response : HttpResponse) (now : String) :
    parse (some 0) count response now = parse none count response now := by
  simp [parse, parseLoop_zero, limitTruthy]

/-- The loop under an active limit `L`, on a page whose first `L - count`
records all carry a process code: it emits exactly those records' items,
drives the counter to `L`, and triggers the early `return` exactly when
there is a further record to look at. -/
theorem parseLoop_limit (L : Nat) (response : HttpResponse) (now : String) (hL0 : 0 < L) :
    ∀ (data : List AjaxData) (count : Nat), count ≤ L →
      (∀ a ∈ data.take (L - count), pyTruthy a.codigo = true) →
      L - count ≤ data.length →
      parseLoop (some L) response now data count =
        ((data.take (L - count)).filterMap (fun a => create_item_from_ajax a response now),
          L, decide (L - count < data.length)) := by
  intro data
  induction data with
  | nil =>
      intro count hcle _ hlen
      simp only [List.length_nil, Nat.le_zero] at hlen
      have hcount : count = L := by omega
      subst hcount
      simp [parseLoop, hlen]
  | cons a rest ih =>
      intro count hcle hvalid hlen
      by_cases hcL : count = L
      · subst hcL
        rw [parseLoop]
        have hreach : limitReached (some count) count = true := by
          simp [limitReached, limitTruthy]
          omega
        simp [hreach, Nat.sub_self]
      · have hlt : count < L := by omega
        rw [parseLoop]
        have hreach : limitReached (some L) count = false := by
          simp [limitReached, limitTruthy]
          omega
        rw [hreach]
        have hsub : L - count = (L - (count + 1)) + 1 := by omega
        have htake : (a :: rest).take (L - count) = a :: rest.take (L - (count + 1)) := by
          rw [hsub, List.take_succ_cons]
        have hta : pyTruthy a.codigo = true := by
          apply hvalid
          rw [htake]
          exact List.mem_cons_self a _
        have hcreate : (create_item_from_ajax a response now).isSome = true :=
          create_item_isSome a response now hta
        cases hc : create_item_from_ajax a response now with
        | none => rw [hc] at hcreate; cases hcreate
        | some item =>
            simp only [hc]
            have ihr := ih (count + 1) (by omega)
              (by
                intro x hx
                apply hvalid
                rw [htake]
                exact List.mem_cons_of_mem a hx)
              (by simp at hlen ⊢; omega)
            rw [ihr]
            rw [htake]
            simp [hc, List.filterMap_cons]
            omega

end SpSaoPauloSpider

namespace SpSaoPauloSpider

/-- The walk with stored limit `0` is step-for-step the walk with no limit. -/
theorem walk_zero_eq (T : Nat) (pd : Nat → List AjaxData) (now : String) :
    ∀ (n count : Nat) (req : HttpRequest), T - req.paramsTemplate.start = n →
      walkRequestCount T pd now (some 0) count req
        = walkRequestCount T pd now none count req := by
  intro n
  induction n using Nat.strong_induction_on with
  | _ n ih =>
    intro count req hn
    rw [walkRequestCount.eq_def, walkRequestCount.eq_def]
    simp only [parse_zero]
    cases hg : (parse none count
        { request := req,
          page := { recordsFiltered := T, data := pd req.paramsTemplate.start } } now).nextRequest with
    | none => simp [hg]
    | some r =>
        simp only [hg]
        split
        · next hguard =>
            have hm : T - r.paramsTemplate.start < n := by omega
            rw [ih (T - r.paramsTemplate.start) hm
              (parse none count
                { request := req,
                  page := { recordsFiltered := T, data := pd req.paramsTemplate.start } }
                now).itemsProcessedCount r rfl]
        · rfl

/-- Closed form for the number of page requests issued by the walk when no
limit is set: from offset `start` it makes `max 1 ⌈(T - start) / 100⌉`
requests. -/
theorem walk_none_closed (T : Nat) (pd : Nat → List AjaxData) (now : String) :
    ∀ (n count : Nat) (req : HttpRequest), T - req.paramsTemplate.start = n →
      walkRequestCount T pd now none count req
        = max 1 ((T - req.paramsTemplate.start + 99) / 100) := by
  intro n
  induction n using Nat.strong_induction_on with
  | _ n ih =>
    intro count req hn
    rw [walkRequestCount.eq_def]
    simp only [parse_none]
    cases hg : get_next_page_request
        { request := req,
          page := { recordsFiltered := T, data := pd req.paramsTemplate.start } } with
    | none =>
        have hge := gnpr_none _ hg
        simp only [items_per_page_ajax] at hge
        simp only [hg]
        omega
    | some r =>
        have hr := gnpr_some _ r hg
        simp only [items_per_page_ajax] at hr
        simp only [hg]
        have hguard : req.paramsTemplate.start < r.paramsTemplate.start ∧
            r.paramsTemplate.start ≤ T := by omega
        rw [dif_pos hguard]
        have hm : T - r.paramsTemplate.start < n := by omega
        rw [ih (T - r.paramsTemplate.start) hm _ r rfl]
        omega

end SpSaoPauloSpider

theorem char_toNat_ofNat_valid (n : Nat) (h : n < 55296) : (Char.ofNat n).toNat = n := by
  simp [Char.ofNat, Char.toNat]
  split
  · rfl
  · next hh => exact absurd (Or.inl h) hh

theorem pyIsSpace_pyToLowerChar (c : Char) : pyIsSpace (pyToLowerChar c) = pyIsSpace c := by
  unfold pyToLowerChar
  split
  · next h =>
      have h2 : 65 ≤ c.toNat ∧ c.toNat ≤ 90 := by simpa using h
      have hvalid : c.toNat + 32 < 55296 := by
        omega
      have h3 : (Char.ofNat (c.toNat + 32)).toNat = c.toNat + 32 :=
        char_toNat_ofNat_valid _ hvalid
      have hlhs : pyIsSpace (Char.ofNat (c.toNat + 32)) = false := by
        simp [pyIsSpace, h3]
        omega
      have hrhs : pyIsSpace c = false := by
        simp [pyIsSpace]
        omega
      rw [hlhs, hrhs]
  · rfl

theorem pyStripList_map_lower (l : List Char) :
    pyStripList (l.map pyToLowerChar) = (pyStripList l).map pyToLowerChar := by
  unfold pyStripList
  have hcomp : (pyIsSpace ∘ pyToLowerChar) = pyIsSpace := by
    funext c
    exact pyIsSpace_pyToLowerChar c
  rw [List.dropWhile_map, hcomp, ← List.map_reverse, List.dropWhile_map, hcomp,
    ← List.map_reverse]

theorem pyStrip_pyLower (s : String) : pyStrip (pyLower s) = pyLower (pyStrip s) := by
  simp [pyStrip, pyLower, pyStripList_map_lower]

theorem pyStrip_pyLower_empty (s : String) :
    (pyStrip (pyLower s) = "") ↔ (pyStrip s = "") := by
  rw [pyStrip_pyLower]
  constructor
  · intro h
    have : (pyStrip s).data.map pyToLowerChar = [] := by
      have := congrArg String.data h
      simpa [pyLower] using this
    have hnil : (pyStrip s).data = [] := List.map_eq_nil_iff.mp this
    cases hs : pyStrip s with
    | mk d =>
        rw [hs] at hnil
        simp only at hnil
        rw [hnil]
  · intro h
    rw [h]
    rfl

namespace SpSaoPauloSpider

/-- Modelled from the spec's words, for comparison with the code's
derivation: the normalized type is the type code lower-cased, trimmed of
surrounding whitespace, with the remaining (internal) spaces replaced by
hyphens, or the literal token `unknown` when nothing remains. -/
def specNormalizedType (t : String) : String :=
  if pyStrip (pyLower t) = "" then "unknown"
  else pyReplaceSpaceHyphen (pyStrip (pyLower t))

/-- The code's normalization (strip at field assignment, then
`lower().replace(' ', '-')`, with `'unknown'` for a falsy stripped type)
computes exactly the spec's normalized type. -/
theorem code_normalized_eq_spec (t : String) :
    (if pyStrip t != "" then pyReplaceSpaceHyphen (pyLower (pyStrip t)) else "unknown")
      = specNormalizedType t := by
  unfold specNormalizedType
  by_cases h : pyStrip t = ""
  · simp [h, (pyStrip_pyLower_empty t).mpr h]
  · have h2 : ¬ pyStrip (pyLower t) = "" := fun hc => h ((pyStrip_pyLower_empty t).mp hc)
    have h3 : ¬ pyLower (pyStrip t) = "" := by rwa [pyStrip_pyLower] at h2
    simp [h, h2, h3, pyStrip_pyLower]

end SpSaoPauloSpider

theorem list_takeWhile_append_stop {p : Char → Bool} (l1 l2 : List Char)
    (h : l1.all p = false) :
    (l1 ++ l2).takeWhile p = l1.takeWhile p := by
  induction l1 with
  | nil => simp at h
  | cons c rest ih =>
      cases hc : p c with
      | false => simp [List.takeWhile_cons, hc]
      | true =>
          rw [List.all_cons, hc, Bool.true_and] at h
          simp [List.takeWhile_cons, hc, ih h]

namespace SpSaoPauloSpider

/-- Every page request of this spider targets the listing endpoint, so a
`response.urljoin` of a path-absolute reference resolves against the
listing endpoint's origin. -/
theorem urljoin_ajax (qs ref : String) :
    urljoin (ajax_url ++ "?" ++ qs) ref
      = "https://splegisconsulta.saopaulo.sp.leg.br" ++ ref := by
  unfold urljoin ajax_url
  rw [String.data_append, String.data_append]
  rw [List.take_append_of_le_length (by decide), List.take_append_of_le_length (by decide)]
  rw [List.drop_append_of_le_length (by decide), List.drop_append_of_le_length (by decide)]
  rw [List.append_assoc]
  rw [list_takeWhile_append_stop _ _ (by decide)]
  congr 1

end SpSaoPauloSpider

namespace SpSaoPauloSpider

/-- Per page, the number of emitted items plus the number of records lacking
a process code equals the number of raw records. -/
theorem filterMap_create_length (response : HttpResponse) (now : String)
    (data : List AjaxData) :
    (data.filterMap (fun a => create_item_from_ajax a response now)).length
      + (data.filter (fun a => !pyTruthy a.codigo)).length = data.length := by
  induction data with
  | nil => rfl
  | cons a rest ih =>
      cases h : pyTruthy a.codigo with
      | false =>
          have hc : create_item_from_ajax a response now = none := by
            simp [create_item_from_ajax, h]
          simp [List.filterMap_cons, List.filter_cons, hc, h]
          omega
      | true =>
          have hc : (create_item_from_ajax a response now).isSome = true :=
            create_item_isSome a response now h
          cases hcc : create_item_from_ajax a response now with
          | none => rw [hcc] at hc; cases hc
          | some item =>
              simp [List.filterMap_cons, List.filter_cons, hcc, h]
              omega

/-- Example records: one lacking the process code, one carrying it. -/
def exampleBadRecord : AjaxData :=
  { codigo := PyVal.vnone, texto := "", sigla := "PL", numero := PyVal.vnone,
    ano := PyVal.vnone, promoventes := [], ementa := "", natodigital := PyVal.vnone }

def exampleGoodRecord : AjaxData :=
  { codigo := PyVal.vstr "X1", texto := "", sigla := "PL", numero := PyVal.vint 5,
    ano := PyVal.vint 2023, promoventes := [], ementa := "Test",
    natodigital := PyVal.vbool false }

def exampleResponseC1 : HttpResponse :=
  { request := start_requests none none
    page := { recordsFiltered := 0, data := [exampleBadRecord, exampleGoodRecord] } }

/-- **C1, counterexample.**  A concrete page with `K = 2` raw records of
which `M = 1` lacks the process code: exactly `K − M = 1` OutputRecord is
yielded, but the running processed-count rises by `2 = K`, refuting the
claim that it increases by `K − M`. -/
theorem claim1_counterexample :
    exampleResponseC1.page.data.length = 2 ∧
    (exampleResponseC1.page.data.filter (fun a => !pyTruthy a.codigo)).length = 1 ∧
    (parse none 0 exampleResponseC1 "t").items.length = 1 ∧
    (parse none 0 exampleResponseC1 "t").itemsProcessedCount = 2 ∧
    ¬ (parse none 0 exampleResponseC1 "t").itemsProcessedCount = 2 - 1 :=
  ⟨rfl, rfl, rfl, rfl, by decide⟩

/-- **C1 (amended).**  A parsed page containing `K` raw records of which
`M` lack a process code yields exactly `K − M` OutputRecords, but the
running processed-count — the counter checked against the record limit —
increases by exactly `K`, not `K − M`: `parse` increments the counter
before the missing-code test, so silently skipped records do count against
the limit.  Skipping is still not an error: the parse returns normally. -/
theorem claim1_amended (response : HttpResponse) (now : String) (count K M : Nat)
    (hK : response.page.data.length = K)
    (hM : (response.page.data.filter (fun a => !pyTruthy a.codigo)).length = M) :
    (parse none count response now).items.length = K - M ∧
    (parse none count response now).itemsProcessedCount = count + K := by
  have hsum := filterMap_create_length response now response.page.data
  rw [parse_none]
  constructor
  · simp only []
    omega
  · simp only []
    omega

/-- **C1, witness.** -/
theorem claim1_witness :
    (parse none 0 exampleResponseC1 "t").items.length = 2 - 1 ∧
    (parse none 0 exampleResponseC1 "t").itemsProcessedCount = 0 + 2 :=
  claim1_amended exampleResponseC1 "t" 0 2 1 (by decide) (by decide)

end SpSaoPauloSpider

namespace SpSaoPauloSpider

/-- **C2, counterexample.**  A body that is valid JSON but lacks the
records array field (`{"recordsFiltered": 0}`): the claim demands a
`MalformedResponse` failure, but the extraction succeeds, substituting the
empty records array. -/
theorem claim2_counterexample :
    Json.lookupKey [("recordsFiltered", Json.num 0)] "data" = none ∧
    loadDataField (some (Json.obj [("recordsFiltered", Json.num 0)]))
      = Except.ok (Json.arr []) :=
  ⟨rfl, rfl⟩

/-- **C2 (amended).**  The decode-and-extract step of `parse`
(`json.loads` followed by `.get('data', [])`) fails iff the body is not
valid JSON or decodes to a non-object; a decoded object that lacks the
records array field does **not** fail — the missing field defaults to the
empty array and the parse proceeds normally with zero records. -/
theorem claim2_amended :
    (∀ body : Option Json,
      (∃ e, loadDataField body = Except.error e) ↔
        (body = none ∨ ∃ j, body = some j ∧ j.isObj = false)) ∧
    (∀ fields, Json.lookupKey fields "data" = none →
      loadDataField (some (Json.obj fields)) = Except.ok (Json.arr [])) := by
  constructor
  · intro body
    cases body with
    | none => simp [loadDataField]
    | some j => cases j <;> simp [loadDataField, Json.isObj]
  · intro fields h
    simp [loadDataField, h]

/-- **C2, witness.** -/
theorem claim2_witness :
    loadDataField (some (Json.obj [("recordsFiltered", Json.num 7), ("draw", Json.num 1)]))
      = Except.ok (Json.arr []) :=
  claim2_amended.2 [("recordsFiltered", Json.num 7), ("draw", Json.num 1)] rfl

def exampleResponseC3 : HttpResponse :=
  { request := start_requests none none
    page := { recordsFiltered := 300
              data := [exampleBadRecord, exampleGoodRecord, exampleGoodRecord] } }

/-- **C3, counterexample.**  Limit `L = 1 < P = 100`, and a single page that
contains at least `L` valid raw records (two of its three records carry a
process code) — yet zero OutputRecords are emitted, not `L`: the skipped
first record consumed the only limit slot. -/
theorem claim3_counterexample :
    (0 < 1 ∧ 1 < items_per_page_ajax) ∧
    1 ≤ (exampleResponseC3.page.data.filter (fun a => pyTruthy a.codigo)).length ∧
    (parse (some 1) 0 exampleResponseC3 "t").items.length = 0 ∧
    ¬ (parse (some 1) 0 exampleResponseC3 "t").items.length = 1 :=
  ⟨by decide, by decide, rfl, by decide⟩

/-- **C3 (amended).**  For a record limit `L` and page size `P` with
`0 < L < P`, parsing a single page whose **first `L` raw records all carry a
process code** (and which has at least `L` records) emits exactly `L`
OutputRecords and produces no next-page request; the limit is checked per
record before processing it, so it cuts the page short.  (The original
claim, quantifying over any page with `≥ L` valid records, fails because
skipped records also consume limit slots.) -/
theorem claim3_amended (L : Nat) (response : HttpResponse) (now : String)
    (hL0 : 0 < L) (_hLP : L < items_per_page_ajax)
    (hvalid : ∀ a ∈ response.page.data.take L, pyTruthy a.codigo = true)
    (hlen : L ≤ response.page.data.length) :
    (parse (some L) 0 response now).items.length = L ∧
    (parse (some L) 0 response now).nextRequest = none := by
  have hloop := parseLoop_limit L response now hL0 response.page.data 0 (by omega)
    (by simpa using hvalid) (by simpa using hlen)
  have hfil : (response.page.data.take L).filter (fun a => !pyTruthy a.codigo) = [] := by
    rw [List.filter_eq_nil_iff]
    intro a ha
    simp [hvalid a ha]
  have hsum := filterMap_create_length response now (response.page.data.take L)
  rw [hfil] at hsum
  have htl : (response.page.data.take L).length = L := by
    rw [List.length_take]
    omega
  unfold parse
  rw [hloop]
  simp only [Nat.sub_zero]
  constructor
  · simp only [List.length_nil, Nat.add_zero] at hsum
    omega
  · have hLne : L ≠ 0 := by omega
    by_cases hmore : L < response.page.data.length
    · have hd : decide (L < response.page.data.length) = true := by simpa using hmore
      simp [hd]
    · have hd : decide (L < response.page.data.length) = false := by simpa using hmore
      simp [hd, limitTruthy, hLne]

/-- **C3, witness.**  Limit 2 on a page of three records whose first two are
valid. -/
theorem claim3_witness :
    (parse (some 2)
      0 { request := start_requests none none
          page := { recordsFiltered := 300
                    data := [exampleGoodRecord, exampleGoodRecord, exampleBadRecord] } }
      "t").items.length = 2 ∧
    (parse (some 2)
      0 { request := start_requests none none
          page := { recordsFiltered := 300
                    data := [exampleGoodRecord, exampleGoodRecord, exampleBadRecord] } }
      "t").nextRequest = none :=
  claim3_amended 2 _ "t" (by decide) (by decide) (by decide) (by decide)

end SpSaoPauloSpider

namespace SpSaoPauloSpider

/-- **C5.**  `get_next_page_request` produces a next request iff
`start + pageSize < filteredTotal`; when it does, the next request's params
copy the current params with `draw` incremented by exactly 1 and `start`
incremented by exactly the page size (every other parameter unchanged), and
the next request carries the same HTTP headers as the current request. -/
theorem claim5_next_request (response : HttpResponse) :
    ((get_next_page_request response).isSome = true ↔
      response.request.paramsTemplate.start + items_per_page_ajax
        < response.page.recordsFiltered) ∧
    (∀ r, get_next_page_request response = some r →
      r.paramsTemplate.draw = response.request.paramsTemplate.draw + 1 ∧
      r.paramsTemplate.start
        = response.request.paramsTemplate.start + items_per_page_ajax ∧
      r.paramsTemplate.others = response.request.paramsTemplate.others ∧
      r.headers = response.request.headers) := by
  refine ⟨gnpr_isSome_iff response, ?_⟩
  intro r h
  have hr := gnpr_some response r h
  exact ⟨hr.1, hr.2.1, hr.2.2.1, hr.2.2.2.1⟩

def exampleResponseC5 : HttpResponse :=
  { request := start_requests none none, page := { recordsFiltered := 150, data := [] } }

def exampleNextParams : ParamsTemplate :=
  { initialParams none none with draw := 2, start := 100 }

def exampleNextRequest : HttpRequest :=
  { url := ajax_url ++ "?" ++ queryString exampleNextParams
    headers := requestHeaders
    paramsTemplate := exampleNextParams }

/-- **C5, witness.**  On the first page with `filteredTotal = 150`, the
next request advances `draw` from 1 to 2 and `start` from 0 to 100. -/
theorem claim5_witness :
    exampleNextRequest.paramsTemplate.draw
        = exampleResponseC5.request.paramsTemplate.draw + 1 ∧
    exampleNextRequest.paramsTemplate.start
        = exampleResponseC5.request.paramsTemplate.start + items_per_page_ajax ∧
    exampleNextRequest.paramsTemplate.others
        = exampleResponseC5.request.paramsTemplate.others ∧
    exampleNextRequest.headers = exampleResponseC5.request.headers :=
  (claim5_next_request exampleResponseC5).2 exampleNextRequest (by rfl)

/-- **C9.**  A record limit of 0 at initialization (`-a limit=0`, the
truthy string `"0"`) is stored as `some 0`, yet `0` is falsy to every
limit check, so parsing and the whole pagination walk behave exactly as
with no limit at all: no early stop is ever caused by the limit. -/
theorem claim9_limit_zero :
    initTotalItemsLimit (some "0") = some 0 ∧
    (∀ (count : Nat) (response : HttpResponse) (now : String),
      parse (some 0) count response now = parse none count response now) ∧
    (∀ (T : Nat) (pd : Nat → List AjaxData) (now : String) (count : Nat)
        (req : HttpRequest),
      walkRequestCount T pd now (some 0) count req
        = walkRequestCount T pd now none count req) := by
  refine ⟨by decide, parse_zero, ?_⟩
  intro T pd now count req
  exact walk_zero_eq T pd now (T - req.paramsTemplate.start) count req rfl

end SpSaoPauloSpider

namespace SpSaoPauloSpider

/-- **C4.**  With no limit set, for any filtered total `T` reported by the
server the walk issues exactly `⌈T / P⌉` page requests in total (`P` the
fixed page size 100), with the boundary `T = 0` producing just the initial
request and no follow-up (`T = P` likewise gives exactly one page).  The
walk always terminates: `walkRequestCount` is a total function, accepted
with the termination measure `T - start`. -/
theorem claim4_pagination_termination (T : Nat) (pd : Nat → List AjaxData)
    (now : String) (data_inicio data_fim : Option String) :
    (0 < T →
      walkRequestCount T pd now none 0 (start_requests data_inicio data_fim)
        = (T + (items_per_page_ajax - 1)) / items_per_page_ajax) ∧
    (T = 0 →
      walkRequestCount T pd now none 0 (start_requests data_inicio data_fim) = 1) := by
  have hstart : (start_requests data_inicio data_fim).paramsTemplate.start = 0 := rfl
  have h := walk_none_closed T pd now (T - (start_requests data_inicio data_fim).paramsTemplate.start)
    0 (start_requests data_inicio data_fim) rfl
  rw [hstart] at h
  rw [h]
  constructor
  · intro hT
    simp only [items_per_page_ajax]
    omega
  · intro hT
    subst hT
    decide

/-- **C4, witness.**  `T = 250` with the fixed page size 100: three page
requests in total. -/
theorem claim4_witness :
    walkRequestCount 250 (fun _ => []) "now" none 0 (start_requests none none)
      = (250 + (items_per_page_ajax - 1)) / items_per_page_ajax :=
  (claim4_pagination_termination 250 (fun _ => []) "now" none none).1 (by decide)

end SpSaoPauloSpider

namespace SpSaoPauloSpider

/-- The storage-path shape of every emitted item, with the normalization
expressed through the spec-worded `specNormalizedType`. -/
theorem create_item_md_files (a : AjaxData) (response : HttpResponse) (now : String)
    (h : pyTruthy a.codigo = true) :
    ∃ item, create_item_from_ajax a response now = some item ∧
      item.md_files = uf ++ "/" ++ slug ++ "/" ++ specNormalizedType a.sigla ++ "-"
        ++ pyStr a.numero ++ "-" ++ pyStr a.ano ++ ".md" := by
  unfold create_item_from_ajax
  dsimp only
  simp only [h, Bool.not_true, Bool.false_eq_true, if_false]
  refine ⟨_, rfl, ?_⟩
  dsimp only
  rw [code_normalized_eq_spec]

/-- **C6.**  Every emitted OutputRecord's storage path is
`{region}/{source-slug}/{normalized-type}-{number}-{year}.md`, with region
`SP` and slug `sp-sao-paulo` fixed constants and the normalized type as the
spec words it (lower-cased, trimmed, internal spaces hyphenated, `unknown`
for an empty type code). -/
theorem claim6_storage_path (a : AjaxData) (response : HttpResponse) (now : String)
    (h : pyTruthy a.codigo = true) :
    ∃ item, create_item_from_ajax a response now = some item ∧
      item.md_files = uf ++ "/" ++ slug ++ "/" ++ specNormalizedType a.sigla ++ "-"
        ++ pyStr a.numero ++ "-" ++ pyStr a.ano ++ ".md" :=
  create_item_md_files a response now h

end SpSaoPauloSpider

namespace SpSaoPauloSpider

/-- The spec's path-determinism example: type code `"Pl "` normalizes to
`pl`. -/
theorem specNormalizedType_example : specNormalizedType "Pl " = "pl" := by decide

def exampleRecordC6 : AjaxData :=
  { codigo := PyVal.vstr "123A", texto := "", sigla := "Pl ", numero := PyVal.vint 123,
    ano := PyVal.vint 2024, promoventes := [], ementa := "",
    natodigital := PyVal.vbool false }

def exampleResponse : HttpResponse :=
  { request := start_requests none none, page := { recordsFiltered := 1, data := [] } }

/-- The full concrete storage path of the spec's example record:
`"Pl "`, number 123, year 2024 give `SP/sp-sao-paulo/pl-123-2024.md`. -/
theorem md_files_concrete_example :
    (create_item_from_ajax exampleRecordC6 exampleResponse "t").map ProposicaoItem.md_files
      = some "SP/sp-sao-paulo/pl-123-2024.md" := by decide

/-- **C6, witness.** -/
theorem claim6_witness :
    ∃ item, create_item_from_ajax exampleRecordC6 exampleResponse "t" = some item ∧
      item.md_files = uf ++ "/" ++ slug ++ "/" ++ specNormalizedType exampleRecordC6.sigla
        ++ "-" ++ pyStr exampleRecordC6.numero ++ "-" ++ pyStr exampleRecordC6.ano ++ ".md" :=
  claim6_storage_path exampleRecordC6 exampleResponse "t" (by decide)

end SpSaoPauloSpider

namespace SpSaoPauloSpider

/-- **C7.**  Every emitted OutputRecord's download URL is built from the
`GerarArquivoProcessoPorID` template — query `referidas=true` when the
digital-native flag is truthy, `filtroAnexo=1` otherwise — with the process
code substituted, resolved against the listing endpoint's origin into an
absolute URL; and that URL is the sole element of the record's
file-download request list. -/
theorem claim7_download_url (a : AjaxData) (response : HttpResponse) (now qs : String)
    (h : pyTruthy a.codigo = true)
    (hurl : response.request.url = ajax_url ++ "?" ++ qs) :
    ∃ item, create_item_from_ajax a response now = some item ∧
      item.url =
        "https://splegisconsulta.saopaulo.sp.leg.br/ArquivoProcesso/GerarArquivoProcessoPorID/"
          ++ pyStr a.codigo
          ++ (if pyTruthy a.natodigital then "?referidas=true" else "?filtroAnexo=1") ∧
      item.file_urls = [item.url] := by
  unfold create_item_from_ajax
  dsimp only
  simp only [h, Bool.not_true, Bool.false_eq_true, if_false]
  refine ⟨_, rfl, ?_, rfl⟩
  dsimp only
  rw [hurl, urljoin_ajax]
  cases hnd : pyTruthy a.natodigital with
  | true =>
      simp only [pdf_link, if_true]
      rfl
  | false =>
      simp only [pdf_link, Bool.false_eq_true, if_false]
      rfl

end SpSaoPauloSpider

namespace SpSaoPauloSpider

def exampleRecordC7 : AjaxData :=
  { codigo := PyVal.vint 777, texto := "", sigla := "PL", numero := PyVal.vint 1,
    ano := PyVal.vint 2020, promoventes := [], ementa := "",
    natodigital := PyVal.vbool true }

/-- **C7, witness.**  A digital-native record with process code 777. -/
theorem claim7_witness :
    ∃ item, create_item_from_ajax exampleRecordC7 exampleResponse "t" = some item ∧
      item.url =
        "https://splegisconsulta.saopaulo.sp.leg.br/ArquivoProcesso/GerarArquivoProcessoPorID/"
          ++ pyStr exampleRecordC7.codigo
          ++ (if pyTruthy exampleRecordC7.natodigital then "?referidas=true"
              else "?filtroAnexo=1") ∧
      item.file_urls = [item.url] :=
  claim7_download_url exampleRecordC7 exampleResponse "t"
    (queryString (initialParams none none)) (by decide) rfl

theorem create_item_uuid (a : AjaxData) (response : HttpResponse) (now : String)
    (item : ProposicaoItem) (h : create_item_from_ajax a response now = some item) :
    item.uuid = md5HexOfString (pyStr a.codigo) := by
  unfold create_item_from_ajax at h
  dsimp only at h
  by_cases ht : pyTruthy a.codigo
  · simp only [ht, Bool.not_true, Bool.false_eq_true, if_false, Option.some.injEq] at h
    rw [← h]
  · simp [ht] at h

/-- **C8.**  Every emitted OutputRecord's content identifier is the
lowercase hex digest of the MD5 hash (RFC 1321, embedded above over the
UTF-8 bytes) of the process code's string form; consequently any two
emissions from the same process-code string carry the same identifier
(determinism across runs and across all other fields), and two emissions
can share an identifier only when the MD5 digests of their process codes
collide. -/
theorem claim8_content_identifier (a : AjaxData) (response : HttpResponse) (now : String)
    (h : pyTruthy a.codigo = true) :
    ∃ item, create_item_from_ajax a response now = some item ∧
      item.uuid = hexdigest (md5bytes (utf8Encode (pyStr a.codigo))) ∧
      (∀ (a2 : AjaxData) (r2 : HttpResponse) (n2 : String) (item2 : ProposicaoItem),
        create_item_from_ajax a2 r2 n2 = some item2 →
        pyStr a2.codigo = pyStr a.codigo → item2.uuid = item.uuid) ∧
      (∀ (a2 : AjaxData) (r2 : HttpResponse) (n2 : String) (item2 : ProposicaoItem),
        create_item_from_ajax a2 r2 n2 = some item2 → item2.uuid = item.uuid →
        md5HexOfString (pyStr a2.codigo) = md5HexOfString (pyStr a.codigo)) := by
  have hsome : (create_item_from_ajax a response now).isSome = true :=
    create_item_isSome a response now h
  cases hc : create_item_from_ajax a response now with
  | none => rw [hc] at hsome; cases hsome
  | some item =>
      have hu : item.uuid = md5HexOfString (pyStr a.codigo) :=
        create_item_uuid a response now item hc
      refine ⟨item, rfl, hu, ?_, ?_⟩
      · intro a2 r2 n2 item2 hc2 hcod
        rw [create_item_uuid a2 r2 n2 item2 hc2, hcod, hu]
      · intro a2 r2 n2 item2 hc2 huu
        rw [← create_item_uuid a2 r2 n2 item2 hc2, huu, hu]

end SpSaoPauloSpider

namespace SpSaoPauloSpider

set_option maxRecDepth 10000 in
/-- RFC 1321 test vector, checked through the kernel: the embedded MD5 is
the real MD5. -/
theorem md5HexOfString_rfc_vector :
    md5HexOfString "abc" = "900150983cd24fb0d6963f7d28e17f72" := by decide

/-- **C8, witness.**  The record with process code `"X1"`. -/
theorem claim8_witness :
    ∃ item, create_item_from_ajax exampleGoodRecord exampleResponse "t" = some item ∧
      item.uuid = hexdigest (md5bytes (utf8Encode (pyStr exampleGoodRecord.codigo))) ∧
      (∀ (a2 : AjaxData) (r2 : HttpResponse) (n2 : String) (item2 : ProposicaoItem),
        create_item_from_ajax a2 r2 n2 = some item2 →
        pyStr a2.codigo = pyStr exampleGoodRecord.codigo → item2.uuid = item.uuid) ∧
      (∀ (a2 : AjaxData) (r2 : HttpResponse) (n2 : String) (item2 : ProposicaoItem),
        create_item_from_ajax a2 r2 n2 = some item2 → item2.uuid = item.uuid →
        md5HexOfString (pyStr a2.codigo) = md5HexOfString (pyStr exampleGoodRecord.codigo)) :=
  claim8_content_identifier exampleGoodRecord exampleResponse "t" (by decide)

/-- **C10.**  A raw record with a non-empty process code is emitted even
when its number or year field is absent: the missing fields are carried
into the OutputRecord as `None` and rendered literally into the storage
path, producing a `...-None-None.md` segment; no error is raised and no
validation of number or year occurs. -/
theorem claim10_missing_number_year (a : AjaxData) (response : HttpResponse)
    (now : String) (h : pyTruthy a.codigo = true)
    (hn : a.numero = PyVal.vnone) (hy : a.ano = PyVal.vnone) :
    ∃ item, create_item_from_ajax a response now = some item ∧
      item.number = PyVal.vnone ∧ item.year = PyVal.vnone ∧
      item.md_files = uf ++ "/" ++ slug ++ "/" ++ specNormalizedType a.sigla
        ++ "-None-None.md" := by
  obtain ⟨item, hitem, hpath⟩ := create_item_md_files a response now h
  refine ⟨item, hitem, ?_, ?_, ?_⟩
  · unfold create_item_from_ajax at hitem
    dsimp only at hitem
    simp only [h, Bool.not_true, Bool.false_eq_true, if_false, Option.some.injEq] at hitem
    rw [← hitem, hn]
  · unfold create_item_from_ajax at hitem
    dsimp only at hitem
    simp only [h, Bool.not_true, Bool.false_eq_true, if_false, Option.some.injEq] at hitem
    rw [← hitem, hy]
  · rw [hpath, hn, hy]
    simp only [pyStr]
    rw [String.append_assoc (uf ++ "/" ++ slug ++ "/" ++ specNormalizedType a.sigla)]
    rw [String.append_assoc (uf ++ "/" ++ slug ++ "/" ++ specNormalizedType a.sigla)]
    rw [String.append_assoc (uf ++ "/" ++ slug ++ "/" ++ specNormalizedType a.sigla)]
    rw [String.append_assoc (uf ++ "/" ++ slug ++ "/" ++ specNormalizedType a.sigla)]
    rfl

end SpSaoPauloSpider

namespace SpSaoPauloSpider

def exampleRecordC10 : AjaxData :=
  { codigo := PyVal.vstr "Z9", texto := "", sigla := "PL", numero := PyVal.vnone,
    ano := PyVal.vnone, promoventes := [], ementa := "",
    natodigital := PyVal.vnone }

/-- The concrete `pl-None-None.md` path of a record with absent number and
year. -/
theorem md_files_none_example :
    (create_item_from_ajax exampleRecordC10 exampleResponse "t").map ProposicaoItem.md_files
      = some "SP/sp-sao-paulo/pl-None-None.md" := by decide

/-- **C10, witness.** -/
theorem claim10_witness :
    ∃ item, create_item_from_ajax exampleRecordC10 exampleResponse "t" = some item ∧
      item.number = PyVal.vnone ∧ item.year = PyVal.vnone ∧
      item.md_files = uf ++ "/" ++ slug ++ "/" ++ specNormalizedType exampleRecordC10.sigla
        ++ "-None-None.md" :=
  claim10_missing_number_year exampleRecordC10 exampleResponse "t" (by decide) rfl rfl

end SpSaoPauloSpider
